import Mathlib

/-
Verification of the virtual-document projection core of the Vetur-style
language server: the synthetic file registry (vueFileInfoManager), the
language-service host (vueTypescriptLanguageServiceHost), the interpolation
language mode (VueInterpolationMode) and the document update path
(VueTypescriptLanguageService.updateCurrentTextDocument), shallowly embedded
in Lean.  External collaborators (the TypeScript analysis engine, source-map
translation, path utilities, the document-regions facility) are abstracted as
record fields or function parameters; everything the repository itself
implements is translated statement by statement from the source.
-/

namespace Vetur

/-- First-match lookup in an association list keyed by strings.  Models a JS
object or `Map` used as a dictionary; combined with cons-insertion this gives
overwrite semantics observationally equal to `Map.set`. -/
def mapFind {α : Type} (m : List (String × α)) (k : String) : Option α :=
  match m with
  | [] => none
  | (k2, v) :: rest => if k2 = k then some v else mapFind rest k

/-- Insertion into an association list (newest binding shadows older ones). -/
def mapInsert {α : Type} (m : List (String × α)) (k : String) (v : α) :
    List (String × α) :=
  (k, v) :: m

theorem mapFind_insert {α : Type} (m : List (String × α)) (k k2 : String) (v : α) :
    mapFind (mapInsert m k v) k2 = if k = k2 then some v else mapFind m k2 := by
  simp [mapInsert, mapFind]

/-- Modelled from the spec: the fixed bridging-module identifier
(`bridge.moduleName`; file bridge.ts is not among the provided sources).  The
spec calls the bridging file "a fixed, non-host-derived synthetic file"; only
a fixed identifier is needed. -/
def bridgeModuleName : String := "vue-editor-bridge"

/-- Modelled from the spec: the fixed file name of the bridging SyntheticFile
(`bridge.fileName`; file bridge.ts is not among the provided sources). -/
def bridgeFileName : String := "vue-temp/vue-editor-bridge.ts"

/-- Modelled from the spec: the bridging file's content served for new Vue
versions (`bridge.content`); the payload text is irrelevant to the claims, a
fixed string distinct from the old payload suffices. -/
def bridgeContent : String := "bridge-content-new"

/-- Modelled from the spec: the bridging file's content served for old Vue
versions (`bridge.oldContent`). -/
def bridgeOldContent : String := "bridge-content-old"

/-- Equality-wise comparison of a leading segment of character lists: the
second list is an initial segment of the first. -/
def charsLeadWith : List Char → List Char → Bool
  | _, [] => true
  | [], _ :: _ => false
  | c :: cs, d :: ds => c = d && charsLeadWith cs ds

/-- Suffix test on strings, written over character lists so that it reduces
inside the kernel; behaviourally this is `String.endsWith`. -/
def strEndsWith (s suffixStr : String) : Bool :=
  charsLeadWith s.toList.reverse suffixStr.toList.reverse

/-- Modelled from the spec: util.ts predicate for host composite documents
(file util.ts is not among the provided sources); a host file name ends in
".vue". -/
def isVueFile (fileName : String) : Bool :=
  strEndsWith fileName ".vue"

/-- Modelled from the spec: util.ts predicate for the virtual script
projection of a composite document; such names end in ".vue.ts". -/
def isVirtualVueFile (fileName : String) : Bool :=
  strEndsWith fileName ".vue.ts"

/-- Modelled from the spec: util.ts predicate for the transient template
projection of a composite document; such names end in ".vue.template". -/
def isVirtualVueTemplateFile (fileName : String) : Bool :=
  strEndsWith fileName ".vue.template"

/-- Script kinds, mirroring the `ts.ScriptKind` enumeration. -/
inductive ScriptKind where
  | Unknown
  | JS
  | JSX
  | TS
  | TSX
  | External
  | JSON
  | Deferred
  deriving DecidableEq

/-- Metadata record for one synthetic file, from vueFileInfoManager.ts. -/
structure FileInfo where
  fileName : String
  version : String
  kind : ScriptKind
  deriving DecidableEq

/-- State of `VueFileInfoManager`: the persistent map for .vue and .vue.ts
files and the transient map for .vue.template files. -/
@[ext]
structure VueFileInfoManager where
  sharedFileInfoMap : List (String × FileInfo)
  virtualVueTemplateFileInfoMap : List (String × FileInfo)
  deriving DecidableEq

/-- The constructor of `VueFileInfoManager`: the bridging file is seeded into
the shared map with version "0" and kind TS. -/
def VueFileInfoManager.init : VueFileInfoManager where
  sharedFileInfoMap := [(bridgeFileName, ⟨bridgeFileName, "0", ScriptKind.TS⟩)]
  virtualVueTemplateFileInfoMap := []

/-- `VueFileInfoManager.getScriptVersion`, translated from the source: the
shared map is consulted first, then the virtual-template map, then "0". -/
def VueFileInfoManager.getScriptVersion (m : VueFileInfoManager)
    (fileName : String) : String :=
  match mapFind m.sharedFileInfoMap fileName with
  | some info => info.version
  | none =>
    match mapFind m.virtualVueTemplateFileInfoMap fileName with
    | some info => info.version
    | none => "0"

/-- `VueFileInfoManager.getScriptKind`, translated from the source.  The
returned Bool records whether the fallback branch fired, i.e. whether the
`console.log` warning about a missing ScriptKind was emitted. -/
def VueFileInfoManager.getScriptKind (m : VueFileInfoManager)
    (fileName : String) : ScriptKind × Bool :=
  match mapFind m.sharedFileInfoMap fileName with
  | some info => (info.kind, false)
  | none =>
    match mapFind m.virtualVueTemplateFileInfoMap fileName with
    | some info => (info.kind, false)
    | none => (ScriptKind.JS, true)

/-- `VueFileInfoManager.addScript`, translated from the source.  The source
body is two sequential guarded inserts touching disjoint fields (first the
shared map, then the virtual-template map), so it is rendered componentwise:
insert into the shared map when the name is a .vue or .vue.ts name and
absent; insert into the virtual-template map when the name is a
.vue.template name and absent; every inserted entry carries version "0". -/
def VueFileInfoManager.addScript (m : VueFileInfoManager) (fileName : String)
    (kind : ScriptKind) : VueFileInfoManager where
  sharedFileInfoMap :=
    if isVueFile fileName || isVirtualVueFile fileName then
      match mapFind m.sharedFileInfoMap fileName with
      | some _ => m.sharedFileInfoMap
      | none => mapInsert m.sharedFileInfoMap fileName ⟨fileName, "0", kind⟩
    else m.sharedFileInfoMap
  virtualVueTemplateFileInfoMap :=
    if isVirtualVueTemplateFile fileName then
      match mapFind m.virtualVueTemplateFileInfoMap fileName with
      | some _ => m.virtualVueTemplateFileInfoMap
      | none =>
        mapInsert m.virtualVueTemplateFileInfoMap fileName ⟨fileName, "0", kind⟩
    else m.virtualVueTemplateFileInfoMap

/-- Manager states reachable from the constructor through `addScript`. -/
inductive VueFileInfoManager.Reachable : VueFileInfoManager → Prop where
  | init : VueFileInfoManager.Reachable VueFileInfoManager.init
  | add {m : VueFileInfoManager} (fileName : String) (kind : ScriptKind) :
      VueFileInfoManager.Reachable m →
      VueFileInfoManager.Reachable (m.addScript fileName kind)

/-- Componentwise equation for the shared map after `addScript`. -/
theorem VueFileInfoManager.addScript_shared_eq (m : VueFileInfoManager)
    (f : String) (k : ScriptKind) :
    (m.addScript f k).sharedFileInfoMap =
      if isVueFile f || isVirtualVueFile f then
        match mapFind m.sharedFileInfoMap f with
        | some _ => m.sharedFileInfoMap
        | none => mapInsert m.sharedFileInfoMap f ⟨f, "0", k⟩
      else m.sharedFileInfoMap := rfl

/-- Componentwise equation for the virtual-template map after `addScript`. -/
theorem VueFileInfoManager.addScript_virtual_eq (m : VueFileInfoManager)
    (f : String) (k : ScriptKind) :
    (m.addScript f k).virtualVueTemplateFileInfoMap =
      if isVirtualVueTemplateFile f then
        match mapFind m.virtualVueTemplateFileInfoMap f with
        | some _ => m.virtualVueTemplateFileInfoMap
        | none => mapInsert m.virtualVueTemplateFileInfoMap f ⟨f, "0", k⟩
      else m.virtualVueTemplateFileInfoMap := rfl

/-- Entries present in the shared map survive `addScript`. -/
theorem VueFileInfoManager.addScript_preserves_shared (m : VueFileInfoManager)
    (f : String) (k : ScriptKind) (g : String) (i : FileInfo)
    (h : mapFind m.sharedFileInfoMap g = some i) :
    mapFind (m.addScript f k).sharedFileInfoMap g = some i := by
  rw [VueFileInfoManager.addScript_shared_eq]
  split
  · cases hm : mapFind m.sharedFileInfoMap f with
    | some j => simp [hm, h]
    | none =>
      simp only [hm, mapFind_insert]
      split
      · rename_i hEq
        subst hEq
        rw [h] at hm
        exact absurd hm (by simp)
      · exact h
  · exact h

/-- Entries present in the virtual-template map survive `addScript`. -/
theorem VueFileInfoManager.addScript_preserves_virtual (m : VueFileInfoManager)
    (f : String) (k : ScriptKind) (g : String) (i : FileInfo)
    (h : mapFind m.virtualVueTemplateFileInfoMap g = some i) :
    mapFind (m.addScript f k).virtualVueTemplateFileInfoMap g = some i := by
  rw [VueFileInfoManager.addScript_virtual_eq]
  split
  · cases hm : mapFind m.virtualVueTemplateFileInfoMap f with
    | some j => simp [hm, h]
    | none =>
      simp only [hm, mapFind_insert]
      split
      · rename_i hEq
        subst hEq
        rw [h] at hm
        exact absurd hm (by simp)
      · exact h
  · exact h

/-- Applying `addScript` twice with the same arguments leaves the shared map
where the first application put it. -/
theorem VueFileInfoManager.addScript_shared_idem (m : VueFileInfoManager)
    (f : String) (k : ScriptKind) :
    ((m.addScript f k).addScript f k).sharedFileInfoMap
      = (m.addScript f k).sharedFileInfoMap := by
  rw [VueFileInfoManager.addScript_shared_eq (m.addScript f k)]
  by_cases hc : (isVueFile f || isVirtualVueFile f) = true
  · simp only [hc, if_true]
    cases hm : mapFind m.sharedFileInfoMap f with
    | some i =>
      have hsh : (m.addScript f k).sharedFileInfoMap = m.sharedFileInfoMap := by
        rw [VueFileInfoManager.addScript_shared_eq]
        simp [hc, hm]
      rw [hsh, hm]
    | none =>
      have hsh : (m.addScript f k).sharedFileInfoMap
          = mapInsert m.sharedFileInfoMap f ⟨f, "0", k⟩ := by
        rw [VueFileInfoManager.addScript_shared_eq]
        simp [hc, hm]
      rw [hsh]
      simp [mapFind_insert]
  · simp [hc]

/-- Applying `addScript` twice with the same arguments leaves the
virtual-template map where the first application put it. -/
theorem VueFileInfoManager.addScript_virtual_idem (m : VueFileInfoManager)
    (f : String) (k : ScriptKind) :
    ((m.addScript f k).addScript f k).virtualVueTemplateFileInfoMap
      = (m.addScript f k).virtualVueTemplateFileInfoMap := by
  rw [VueFileInfoManager.addScript_virtual_eq (m.addScript f k)]
  by_cases hc : isVirtualVueTemplateFile f = true
  · simp only [hc, if_true]
    cases hm : mapFind m.virtualVueTemplateFileInfoMap f with
    | some i =>
      have hv : (m.addScript f k).virtualVueTemplateFileInfoMap
          = m.virtualVueTemplateFileInfoMap := by
        rw [VueFileInfoManager.addScript_virtual_eq]
        simp [hc, hm]
      rw [hv, hm]
    | none =>
      have hv : (m.addScript f k).virtualVueTemplateFileInfoMap
          = mapInsert m.virtualVueTemplateFileInfoMap f ⟨f, "0", k⟩ := by
        rw [VueFileInfoManager.addScript_virtual_eq]
        simp [hc, hm]
      rw [hv]
      simp [mapFind_insert]
  · simp [hc]

/-- The bridging file's seeded entry survives every `addScript`. -/
theorem VueFileInfoManager.reachable_bridge_entry (m : VueFileInfoManager)
    (h : m.Reachable) :
    mapFind m.sharedFileInfoMap bridgeFileName
      = some ⟨bridgeFileName, "0", ScriptKind.TS⟩ := by
  induction h with
  | init => simp [VueFileInfoManager.init, mapFind]
  | add fileName kind _ ih =>
    exact VueFileInfoManager.addScript_preserves_shared _ fileName kind _ _ ih

/-- C6: `getScriptVersion` returns "0" for a fileName present in neither the
persistent (shared) nor the transient (virtual-template) registry map; for a
fileName present in the shared map it returns that entry's stored version,
and for one present only in the virtual-template map it returns that entry's
stored version. -/
theorem getScriptVersion_spec (m : VueFileInfoManager) (f : String) :
    (mapFind m.sharedFileInfoMap f = none →
      mapFind m.virtualVueTemplateFileInfoMap f = none →
      m.getScriptVersion f = "0")
    ∧ (∀ info, mapFind m.sharedFileInfoMap f = some info →
        m.getScriptVersion f = info.version)
    ∧ (mapFind m.sharedFileInfoMap f = none →
        ∀ info, mapFind m.virtualVueTemplateFileInfoMap f = some info →
          m.getScriptVersion f = info.version) := by
  refine ⟨fun h1 h2 => ?_, fun info h => ?_, fun h1 info h2 => ?_⟩
  · simp [VueFileInfoManager.getScriptVersion, h1, h2]
  · simp [VueFileInfoManager.getScriptVersion, h]
  · simp [VueFileInfoManager.getScriptVersion, h1, h2]

/-- Witness for C6 at concrete inputs: an unknown file gets "0", a file
stored in the shared map gets its stored version. -/
theorem getScriptVersion_spec_witness :
    VueFileInfoManager.getScriptVersion
        ⟨[("a.vue", ⟨"a.vue", "7", ScriptKind.JS⟩)], []⟩ "missing.vue" = "0"
    ∧ VueFileInfoManager.getScriptVersion
        ⟨[("a.vue", ⟨"a.vue", "7", ScriptKind.JS⟩)], []⟩ "a.vue" = "7" :=
  ⟨(getScriptVersion_spec ⟨[("a.vue", ⟨"a.vue", "7", ScriptKind.JS⟩)], []⟩
      "missing.vue").1 (by decide) (by decide),
   (getScriptVersion_spec ⟨[("a.vue", ⟨"a.vue", "7", ScriptKind.JS⟩)], []⟩
      "a.vue").2.1 ⟨"a.vue", "7", ScriptKind.JS⟩ (by decide)⟩

/-- C7: `getScriptKind` returns kind TS (without warning) for the bridging
file in every manager state reachable from the constructor; otherwise it
consults the persistent (shared) map first, then the transient
(virtual-template) map, and for a fileName absent from both it returns the
default JS kind together with the emitted warning flag, never failing. -/
theorem getScriptKind_spec (m : VueFileInfoManager) (f : String)
    (h : m.Reachable) :
    m.getScriptKind bridgeFileName = (ScriptKind.TS, false)
    ∧ (∀ info, mapFind m.sharedFileInfoMap f = some info →
        m.getScriptKind f = (info.kind, false))
    ∧ (mapFind m.sharedFileInfoMap f = none →
        ∀ info, mapFind m.virtualVueTemplateFileInfoMap f = some info →
          m.getScriptKind f = (info.kind, false))
    ∧ (mapFind m.sharedFileInfoMap f = none →
        mapFind m.virtualVueTemplateFileInfoMap f = none →
        m.getScriptKind f = (ScriptKind.JS, true)) := by
  refine ⟨?_, fun info hs => ?_, fun h1 info h2 => ?_, fun h1 h2 => ?_⟩
  · have hb := VueFileInfoManager.reachable_bridge_entry m h
    simp [VueFileInfoManager.getScriptKind, hb]
  · simp [VueFileInfoManager.getScriptKind, hs]
  · simp [VueFileInfoManager.getScriptKind, h1, h2]
  · simp [VueFileInfoManager.getScriptKind, h1, h2]

/-- Witness for C7 at concrete inputs: the freshly constructed manager is
reachable, resolves the bridging file to kind TS without warning, and falls
back to kind JS with a warning for an unknown file. -/
theorem getScriptKind_spec_witness :
    VueFileInfoManager.init.getScriptKind bridgeFileName = (ScriptKind.TS, false)
    ∧ VueFileInfoManager.init.getScriptKind "unknown.js" = (ScriptKind.JS, true) :=
  ⟨(getScriptKind_spec VueFileInfoManager.init "unknown.js"
      VueFileInfoManager.Reachable.init).1,
   (getScriptKind_spec VueFileInfoManager.init "unknown.js"
      VueFileInfoManager.Reachable.init).2.2.2 (by decide) (by decide)⟩

/-- C8: `addScript` is idempotent and registration-only.  Registering twice
equals registering once; a fresh entry with version "0" is inserted into the
shared map exactly when the name is a host (.vue) or virtual-script (.vue.ts)
name and absent, and into the virtual-template map exactly when the name is a
template-projection (.vue.template) name and absent; registering a fileName
already present in the corresponding map leaves that map unchanged, and every
pre-existing entry (hence its version) is preserved verbatim. -/
theorem addScript_spec (m : VueFileInfoManager) (f : String) (k : ScriptKind) :
    ((m.addScript f k).addScript f k = m.addScript f k)
    ∧ ((isVueFile f || isVirtualVueFile f) = true →
        mapFind m.sharedFileInfoMap f = none →
        mapFind (m.addScript f k).sharedFileInfoMap f = some ⟨f, "0", k⟩)
    ∧ ((isVueFile f || isVirtualVueFile f) = false →
        (m.addScript f k).sharedFileInfoMap = m.sharedFileInfoMap)
    ∧ (∀ info, mapFind m.sharedFileInfoMap f = some info →
        (m.addScript f k).sharedFileInfoMap = m.sharedFileInfoMap)
    ∧ (isVirtualVueTemplateFile f = true →
        mapFind m.virtualVueTemplateFileInfoMap f = none →
        mapFind (m.addScript f k).virtualVueTemplateFileInfoMap f
          = some ⟨f, "0", k⟩)
    ∧ (isVirtualVueTemplateFile f = false →
        (m.addScript f k).virtualVueTemplateFileInfoMap
          = m.virtualVueTemplateFileInfoMap)
    ∧ (∀ info, mapFind m.virtualVueTemplateFileInfoMap f = some info →
        (m.addScript f k).virtualVueTemplateFileInfoMap
          = m.virtualVueTemplateFileInfoMap)
    ∧ (∀ g info, (mapFind m.sharedFileInfoMap g = some info →
          mapFind (m.addScript f k).sharedFileInfoMap g = some info)
        ∧ (mapFind m.virtualVueTemplateFileInfoMap g = some info →
          mapFind (m.addScript f k).virtualVueTemplateFileInfoMap g
            = some info)) := by
  refine ⟨?_, fun hm hn => ?_, fun hm => ?_, fun info hs => ?_,
    fun hm hn => ?_, fun hm => ?_, fun info hs => ?_,
    fun g info => ⟨fun h => ?_, fun h => ?_⟩⟩
  · exact VueFileInfoManager.ext
      (VueFileInfoManager.addScript_shared_idem m f k)
      (VueFileInfoManager.addScript_virtual_idem m f k)
  · rw [VueFileInfoManager.addScript_shared_eq]
    simp [hm, hn, mapFind_insert]
  · rw [VueFileInfoManager.addScript_shared_eq]
    simp [hm]
  · rw [VueFileInfoManager.addScript_shared_eq]
    split
    · simp [hs]
    · rfl
  · rw [VueFileInfoManager.addScript_virtual_eq]
    simp [hm, hn, mapFind_insert]
  · rw [VueFileInfoManager.addScript_virtual_eq]
    simp [hm]
  · rw [VueFileInfoManager.addScript_virtual_eq]
    split
    · simp [hs]
    · rfl
  · exact VueFileInfoManager.addScript_preserves_shared m f k g info h
  · exact VueFileInfoManager.addScript_preserves_virtual m f k g info h

/-- Witness for C8 at concrete inputs: registering "a.vue" twice equals
registering it once, the fresh entry carries version "0", and a name matching
no pattern changes nothing. -/
theorem addScript_spec_witness :
    (VueFileInfoManager.init.addScript "a.vue" ScriptKind.JS).addScript
        "a.vue" ScriptKind.JS
      = VueFileInfoManager.init.addScript "a.vue" ScriptKind.JS
    ∧ mapFind (VueFileInfoManager.init.addScript "a.vue"
        ScriptKind.JS).sharedFileInfoMap "a.vue"
      = some ⟨"a.vue", "0", ScriptKind.JS⟩
    ∧ (VueFileInfoManager.init.addScript "other.ts"
        ScriptKind.TS).sharedFileInfoMap
      = VueFileInfoManager.init.sharedFileInfoMap :=
  ⟨(addScript_spec VueFileInfoManager.init "a.vue" ScriptKind.JS).1,
   (addScript_spec VueFileInfoManager.init "a.vue" ScriptKind.JS).2.1
     (by decide) (by decide),
   (addScript_spec VueFileInfoManager.init "other.ts" ScriptKind.TS).2.2.1
     (by decide)⟩

/-! Embedding of the interpolation language mode (VueInterpolationMode). -/

/-- A zero-based line/character position, mirroring LSP `Position`. -/
structure Position where
  line : Nat
  character : Nat
  deriving DecidableEq

/-- A host-document range, mirroring LSP `Range`. -/
structure Range where
  start : Position
  stop : Position
  deriving DecidableEq

/-- A span in a synthetic file, mirroring `ts.TextSpan`. -/
structure TextSpan where
  start : Nat
  length : Nat
  deriving DecidableEq

/-- A full-text versioned document, mirroring `TextDocument` of
vscode-languageserver-types. -/
structure TextDocument where
  uri : String
  languageId : String
  version : Nat
  text : String
  deriving DecidableEq

/-- Diagnostic severities, mirroring `DiagnosticSeverity`. -/
inductive DiagnosticSeverity where
  | Error
  | Warning
  | Information
  | Hint
  deriving DecidableEq

/-- An outward diagnostic as produced by `doValidation`. -/
structure Diagnostic where
  range : Range
  severity : DiagnosticSeverity
  message : String
  code : Nat
  source : String
  deriving DecidableEq

/-- An engine-native diagnostic: a span plus message text and numeric code
(the subset of `ts.Diagnostic` the mode reads). -/
structure RawDiag where
  span : TextSpan
  messageText : String
  code : Nat
  deriving DecidableEq

/-- Engine quick-info result (subset of `ts.QuickInfo` the mode reads). -/
structure QuickInfo where
  displayParts : List String
  documentation : List String
  textSpan : TextSpan
  deriving DecidableEq

/-- An engine definition or reference entry: originating file and span. -/
structure DefinitionInfo where
  fileName : String
  textSpan : TextSpan
  deriving DecidableEq

/-- The engine's workspace program view: full text of a file by name,
`none` when the file is not part of the program. -/
structure Program where
  getSourceFile : String → Option String

/-- A bidirectional position-mapping table between a synthetic template file
and its host document.  The translation functions consuming it are external
collaborators and stay abstract (fields of `TsEnv`). -/
structure SourceMap where
  entries : List (TextSpan × Range)
  deriving DecidableEq

/-- Hover content entries, mirroring `MarkedString`. -/
inductive MarkedString where
  | plain (value : String)
  | code (language : String) (value : String)
  deriving DecidableEq

/-- Result shape of `doHover`. -/
structure HoverResult where
  contents : List MarkedString
  range : Option Range
  deriving DecidableEq

/-- An editor command, mirroring `Command` (contents irrelevant here). -/
structure Command where
  title : String
  command : String
  deriving DecidableEq

/-- An engine code-fix action (contents irrelevant here). -/
structure CodeFixAction where
  description : String
  deriving DecidableEq

/-- An engine applicable-refactor entry (contents irrelevant here). -/
structure RefactorInfo where
  name : String
  deriving DecidableEq

/-- Formatting options passed to `getCodeActions` (unused by its body). -/
structure FormattingOptions where
  tabSize : Nat
  insertSpaces : Bool
  deriving DecidableEq

/-- Format-code settings derived from configuration. -/
structure FormatSettings where
  tabSize : Nat
  deriving DecidableEq

/-- Code-action context, mirroring `CodeActionContext`. -/
structure CodeActionContext where
  diagnostics : List Diagnostic
  deriving DecidableEq

/-- Location result, mirroring LSP `Location`. -/
structure Location where
  uri : String
  range : Range
  deriving DecidableEq

/-- The lenient (template) analysis engine instance: the queries
VueInterpolationMode issues against `templateService`, each keyed by file
name and offsets, plus the `languageServiceIncludesFile` check. -/
structure TemplateService where
  includesFile : String → Bool
  getSemanticDiagnostics : String → List RawDiag
  getSyntacticDiagnostics : String → List RawDiag
  getQuickInfoAtPosition : String → Nat → Option QuickInfo
  getDefinitionAtPosition : String → Nat → Option (List DefinitionInfo)
  getReferencesAtPosition : String → Nat → Option (List DefinitionInfo)
  getProgram : Option Program
  getCodeFixesAtPosition :
    String → Nat → Nat → List Nat → FormatSettings → List CodeFixAction
  getApplicableRefactors : String → Nat → Nat → List RefactorInfo

/-- What `IServiceHost.updateCurrentTextDocument` hands back to the mode. -/
structure UpdateResult where
  templateService : TemplateService
  templateSourceMap : SourceMap

/-- The service host as seen by VueInterpolationMode. -/
structure IServiceHost where
  updateCurrentTextDocument : TextDocument → UpdateResult

/-- The feature-flag configuration bag: the one nested key the mode reads,
`vetur.experimental.templateInterpolationService`. -/
structure VeturConfig where
  templateInterpolationService : Option Bool
  deriving DecidableEq

/-- External collaborator functions used by the mode (path conversion,
source-map translation, TypeScript helper routines); all are outside the
repository sources and stay abstract. -/
structure TsEnv where
  getFileFsPath : String → String
  mapBackRange : TextDocument → TextSpan → SourceMap → Range
  mapFromPositionToOffset : TextDocument → Position → SourceMap → Nat
  flattenDiagnosticMessageText : String → String
  displayPartsToString : List String → String
  supportedCodeFixCodes : List Nat
  getFormatCodeSettings : VeturConfig → FormatSettings
  collectQuickFixCommands : List CodeFixAction → List Command
  collectRefactoringCommands :
    List RefactorInfo → String → FormatSettings → Nat → Nat → List Command

/-- Translation of the lodash lookup
`_.get(config, [vetur, experimental, templateInterpolationService], true)`:
the stored flag when present, else the default `true`. -/
def interpolationEnabled (config : VeturConfig) : Bool :=
  config.templateInterpolationService.getD true

/-- The template projection document: the host document re-identified with a
".template" uri suffix, same language id, version and text. -/
def mkTemplateDoc (document : TextDocument) : TextDocument :=
  ⟨document.uri ++ ".template", document.languageId, document.version,
    document.text⟩

/-- `VueInterpolationMode.doValidation`, translated from the source.  The
Bool of the result records whether `serviceHost.updateCurrentTextDocument`
(the lenient analysis context) was invoked. -/
def doValidation (env : TsEnv) (host : IServiceHost) (config : VeturConfig)
    (document : TextDocument) : List Diagnostic × Bool :=
  if interpolationEnabled config then
    let templateDoc := mkTemplateDoc document
    let r := host.updateCurrentTextDocument templateDoc
    if r.templateService.includesFile templateDoc.uri then
      let templateFileFsPath := env.getFileFsPath templateDoc.uri
      let rawTemplateDiagnostics :=
        r.templateService.getSemanticDiagnostics templateFileFsPath
      (rawTemplateDiagnostics.map fun diag =>
        { range := env.mapBackRange templateDoc diag.span r.templateSourceMap
          severity := DiagnosticSeverity.Error
          message := env.flattenDiagnosticMessageText diag.messageText
          code := diag.code
          source := "Vetur" }, true)
    else ([], true)
  else ([], false)

/-- `VueInterpolationMode.doHover`, translated from the source; the Bool
records whether the lenient analysis context was invoked. -/
def doHover (env : TsEnv) (host : IServiceHost) (config : VeturConfig)
    (document : TextDocument) (position : Position) : HoverResult × Bool :=
  if interpolationEnabled config then
    let templateDoc := mkTemplateDoc document
    let r := host.updateCurrentTextDocument templateDoc
    if r.templateService.includesFile templateDoc.uri then
      let templateFileFsPath := env.getFileFsPath templateDoc.uri
      let mappedPosition :=
        env.mapFromPositionToOffset templateDoc position r.templateSourceMap
      match r.templateService.getQuickInfoAtPosition templateFileFsPath
          mappedPosition with
      | some info =>
        let display := env.displayPartsToString info.displayParts
        let docStr := env.displayPartsToString info.documentation
        let markedContents :=
          if docStr ≠ "" then
            [MarkedString.plain docStr, MarkedString.plain "\n",
              MarkedString.code "ts" display]
          else [MarkedString.code "ts" display]
        ({ contents := markedContents
           range := some (env.mapBackRange templateDoc info.textSpan
             r.templateSourceMap) }, true)
      | none => ({ contents := [], range := none }, true)
    else ({ contents := [], range := none }, true)
  else ({ contents := [], range := none }, false)

/-- Direct offset-to-line/character conversion against a text, mirroring
`TextDocument.positionAt`: walk the first `offset` characters counting line
breaks. -/
def positionAtAux : List Char → Nat → Nat → Nat → Position
  | _, 0, line, ch => ⟨line, ch⟩
  | [], _ + 1, line, ch => ⟨line, ch⟩
  | c :: rest, n + 1, line, ch =>
    if c = '\n' then positionAtAux rest n (line + 1) 0
    else positionAtAux rest n line (ch + 1)

/-- Offset-to-position conversion on a document's own text. -/
def positionAt (text : String) (offset : Nat) : Position :=
  positionAtAux text.toList offset 0 0

/-- `convertRange`, translated from the source: both ends of the span are
converted with the document's own `positionAt`, no SourceMap involved. -/
def convertRange (document : TextDocument) (span : TextSpan) : Range :=
  ⟨positionAt document.text span.start,
    positionAt document.text (span.start + span.length)⟩

/-- `getSourceDoc`, translated from the source.  The source reads
`program.getSourceFile(fileName)!` and immediately calls `getFullText()` on
it; when the program has no such file that call throws a TypeError, modelled
here as the `Except.error` case. -/
def getSourceDoc (program : Program) (fileName : String) :
    Except Unit TextDocument :=
  match program.getSourceFile fileName with
  | some fullText => Except.ok ⟨fileName, "vue", 0, fullText⟩
  | none => Except.error ()

/-- The result-collection loop shared verbatim by `findDefinition` and
`findReferences`: spans originating in the template file are mapped back
through the SourceMap and attached to the host document's identity; spans
from other files go through `getSourceDoc` (which can throw) and
`convertRange` against that file's own text. -/
def collectSpanLocations (env : TsEnv) (templateDoc document : TextDocument)
    (templateFileFsPath : String) (map : SourceMap) (program : Program) :
    List DefinitionInfo → Except Unit (List Location)
  | [] => Except.ok []
  | r :: rest =>
    if r.fileName = templateFileFsPath then
      match collectSpanLocations env templateDoc document templateFileFsPath
          map program rest with
      | Except.error e => Except.error e
      | Except.ok tail =>
        Except.ok ({ uri := document.uri
                     range := env.mapBackRange templateDoc r.textSpan map }
          :: tail)
    else
      match getSourceDoc program r.fileName with
      | Except.error e => Except.error e
      | Except.ok targetDoc =>
        match collectSpanLocations env templateDoc document templateFileFsPath
            map program rest with
        | Except.error e => Except.error e
        | Except.ok tail =>
          Except.ok ({ uri := targetDoc.uri
                       range := convertRange targetDoc r.textSpan } :: tail)

/-- `VueInterpolationMode.findDefinition`, translated from the source; the
Bool records whether the lenient analysis context was invoked; the Except
layer records the TypeError escaping from `getSourceDoc`. -/
def findDefinition (env : TsEnv) (host : IServiceHost) (config : VeturConfig)
    (document : TextDocument) (position : Position) :
    Except Unit (List Location) × Bool :=
  if interpolationEnabled config then
    let templateDoc := mkTemplateDoc document
    let r := host.updateCurrentTextDocument templateDoc
    if r.templateService.includesFile templateDoc.uri then
      let templateFileFsPath := env.getFileFsPath templateDoc.uri
      let mappedPosition :=
        env.mapFromPositionToOffset templateDoc position r.templateSourceMap
      match r.templateService.getDefinitionAtPosition templateFileFsPath
          mappedPosition with
      | none => (Except.ok [], true)
      | some definitions =>
        match r.templateService.getProgram with
        | none => (Except.ok [], true)
        | some program =>
          (collectSpanLocations env templateDoc document templateFileFsPath
            r.templateSourceMap program definitions, true)
    else (Except.ok [], true)
  else (Except.ok [], false)

/-- `VueInterpolationMode.findReferences`, translated from the source; the
Bool records whether the lenient analysis context was invoked. -/
def findReferences (env : TsEnv) (host : IServiceHost) (config : VeturConfig)
    (document : TextDocument) (position : Position) :
    Except Unit (List Location) × Bool :=
  if interpolationEnabled config then
    let templateDoc := mkTemplateDoc document
    let r := host.updateCurrentTextDocument templateDoc
    if r.templateService.includesFile templateDoc.uri then
      let templateFileFsPath := env.getFileFsPath templateDoc.uri
      let mappedPosition :=
        env.mapFromPositionToOffset templateDoc position r.templateSourceMap
      match r.templateService.getReferencesAtPosition templateFileFsPath
          mappedPosition with
      | none => (Except.ok [], true)
      | some references =>
        match r.templateService.getProgram with
        | none => (Except.ok [], true)
        | some program =>
          (collectSpanLocations env templateDoc document templateFileFsPath
            r.templateSourceMap program references, true)
    else (Except.ok [], true)
  else (Except.ok [], false)

/-- `VueInterpolationMode.getCodeActions`, translated from the source; the
Bool records whether the lenient analysis context was invoked.  The source's
`if (!fixableDiagnosticCodes) return []` tests an array, which is always
truthy in JS, so that early return is unreachable and has no counterpart
here. -/
def getCodeActions (env : TsEnv) (host : IServiceHost) (config : VeturConfig)
    (document : TextDocument) (range : Range)
    (_formatParams : FormattingOptions) (context : CodeActionContext) :
    List Command × Bool :=
  if interpolationEnabled config then
    let templateDoc := mkTemplateDoc document
    let r := host.updateCurrentTextDocument templateDoc
    if r.templateService.includesFile templateDoc.uri then
      let templateFileFsPath := env.getFileFsPath templateDoc.uri
      let start :=
        env.mapFromPositionToOffset templateDoc range.start r.templateSourceMap
      let stop :=
        env.mapFromPositionToOffset templateDoc range.stop r.templateSourceMap
      let fixableDiagnosticCodes :=
        (context.diagnostics.map fun d => d.code).filter
          fun c => env.supportedCodeFixCodes.contains c
      let formatSettings := env.getFormatCodeSettings config
      let fixes := r.templateService.getCodeFixesAtPosition templateFileFsPath
        start stop fixableDiagnosticCodes formatSettings
      let result := env.collectQuickFixCommands fixes
      let refactorings := r.templateService.getApplicableRefactors
        templateFileFsPath start stop
      (result ++ env.collectRefactoringCommands refactorings
        templateFileFsPath formatSettings start stop, true)
    else ([], true)
  else ([], false)

/-! Concrete fixtures used by the witness theorems below. -/

/-- A concrete collaborator environment with trivially computable fields. -/
def sampleEnv : TsEnv where
  getFileFsPath := fun u => u
  mapBackRange := fun _ _ _ => ⟨⟨0, 0⟩, ⟨0, 0⟩⟩
  mapFromPositionToOffset := fun _ _ _ => 0
  flattenDiagnosticMessageText := fun s => s
  displayPartsToString := fun parts => String.join parts
  supportedCodeFixCodes := [2551]
  getFormatCodeSettings := fun _ => ⟨2⟩
  collectQuickFixCommands := fun fixes =>
    fixes.map fun f => ⟨f.description, "quickfix"⟩
  collectRefactoringCommands := fun rs _ _ _ _ =>
    rs.map fun r => ⟨r.name, "refactor"⟩

/-- A concrete engine diagnostic. -/
def sampleRawDiag : RawDiag := ⟨⟨0, 1⟩, "msg", 2551⟩

/-- A concrete lenient engine: the template file is included, one semantic
diagnostic is reported, and one definition span points at a file that the
program cannot resolve. -/
def sampleService : TemplateService where
  includesFile := fun _ => true
  getSemanticDiagnostics := fun _ => [sampleRawDiag]
  getSyntacticDiagnostics := fun _ => []
  getQuickInfoAtPosition := fun _ _ => none
  getDefinitionAtPosition := fun _ _ => some [⟨"other.ts", ⟨0, 1⟩⟩]
  getReferencesAtPosition := fun _ _ => none
  getProgram := some ⟨fun _ => none⟩
  getCodeFixesAtPosition := fun _ _ _ _ _ => []
  getApplicableRefactors := fun _ _ _ => []

/-- A concrete service host handing out `sampleService`. -/
def sampleHost : IServiceHost := ⟨fun _ => ⟨sampleService, ⟨[]⟩⟩⟩

/-- A concrete host document. -/
def sampleDoc : TextDocument := ⟨"file:///a.vue", "vue", 1, "text"⟩

/-- C1: with the template-interpolation feature flag disabled in the supplied
configuration, each of the five outward operations (validate, hover,
findDefinition, findReferences, getCodeActions) returns an empty result
(empty diagnostics, empty hover contents, empty location list, empty command
list) with the invoked-host flag false, i.e. without invoking the lenient
analysis context. -/
theorem disabled_flag_short_circuits (env : TsEnv) (host : IServiceHost)
    (config : VeturConfig) (document : TextDocument) (position : Position)
    (range : Range) (formatParams : FormattingOptions)
    (context : CodeActionContext)
    (h : interpolationEnabled config = false) :
    doValidation env host config document = ([], false)
    ∧ doHover env host config document position = (⟨[], none⟩, false)
    ∧ findDefinition env host config document position = (Except.ok [], false)
    ∧ findReferences env host config document position = (Except.ok [], false)
    ∧ getCodeActions env host config document range formatParams context
        = ([], false) := by
  refine ⟨?_, ?_, ?_, ?_, ?_⟩ <;>
    simp [doValidation, doHover, findDefinition, findReferences,
      getCodeActions, h]

/-- Witness for C1 at concrete inputs: the flag set to false short-circuits
all five operations. -/
theorem disabled_flag_short_circuits_witness :
    interpolationEnabled ⟨some false⟩ = false
    ∧ doValidation sampleEnv sampleHost ⟨some false⟩ sampleDoc = ([], false)
    ∧ doHover sampleEnv sampleHost ⟨some false⟩ sampleDoc ⟨0, 0⟩
        = (⟨[], none⟩, false)
    ∧ findDefinition sampleEnv sampleHost ⟨some false⟩ sampleDoc ⟨0, 0⟩
        = (Except.ok [], false)
    ∧ findReferences sampleEnv sampleHost ⟨some false⟩ sampleDoc ⟨0, 0⟩
        = (Except.ok [], false)
    ∧ getCodeActions sampleEnv sampleHost ⟨some false⟩ sampleDoc
        ⟨⟨0, 0⟩, ⟨0, 0⟩⟩ ⟨2, true⟩ ⟨[]⟩ = ([], false) := by
  have h := disabled_flag_short_circuits sampleEnv sampleHost ⟨some false⟩
    sampleDoc ⟨0, 0⟩ ⟨⟨0, 0⟩, ⟨0, 0⟩⟩ ⟨2, true⟩ ⟨[]⟩ (by decide)
  exact ⟨by decide, h.1, h.2.1, h.2.2.1, h.2.2.2.1, h.2.2.2.2⟩

/-- C3: every diagnostic returned by interpolation validation comes from the
engine's semantic query only: it corresponds to an entry of
`getSemanticDiagnostics` (the syntactic query is never consulted), carries
severity Error, the engine's numeric code, the flattened single-string
message, and a range mapped back through the template SourceMap. -/
theorem doValidation_semantic_only (env : TsEnv) (host : IServiceHost)
    (config : VeturConfig) (document : TextDocument) :
    ∀ d ∈ (doValidation env host config document).1,
      ∃ raw ∈ (host.updateCurrentTextDocument
            (mkTemplateDoc document)).templateService.getSemanticDiagnostics
            (env.getFileFsPath (mkTemplateDoc document).uri),
        d.severity = DiagnosticSeverity.Error
        ∧ d.code = raw.code
        ∧ d.message = env.flattenDiagnosticMessageText raw.messageText
        ∧ d.range = env.mapBackRange (mkTemplateDoc document) raw.span
            (host.updateCurrentTextDocument
              (mkTemplateDoc document)).templateSourceMap
        ∧ d.source = "Vetur" := by
  intro d hd
  unfold doValidation at hd
  by_cases hc : interpolationEnabled config = true
  · simp only [hc, if_true] at hd
    by_cases hi : (host.updateCurrentTextDocument
        (mkTemplateDoc document)).templateService.includesFile
        (mkTemplateDoc document).uri = true
    · simp only [hi, if_true] at hd
      obtain ⟨raw, hraw, rfl⟩ := List.mem_map.mp hd
      exact ⟨raw, hraw, rfl, rfl, rfl, rfl, rfl⟩
    · simp [hi] at hd
  · simp [hc] at hd

/-- Witness for C3 at concrete inputs: the one diagnostic produced by the
sample engine satisfies the correspondence. -/
theorem doValidation_semantic_only_witness :
    (⟨⟨⟨0, 0⟩, ⟨0, 0⟩⟩, DiagnosticSeverity.Error, "msg", 2551, "Vetur"⟩
        : Diagnostic)
      ∈ (doValidation sampleEnv sampleHost ⟨some true⟩ sampleDoc).1
    ∧ ∃ raw ∈ (sampleHost.updateCurrentTextDocument
          (mkTemplateDoc sampleDoc)).templateService.getSemanticDiagnostics
          (sampleEnv.getFileFsPath (mkTemplateDoc sampleDoc).uri),
        (⟨⟨⟨0, 0⟩, ⟨0, 0⟩⟩, DiagnosticSeverity.Error, "msg", 2551, "Vetur"⟩
            : Diagnostic).severity = DiagnosticSeverity.Error
        ∧ (⟨⟨⟨0, 0⟩, ⟨0, 0⟩⟩, DiagnosticSeverity.Error, "msg", 2551, "Vetur"⟩
            : Diagnostic).code = raw.code
        ∧ (⟨⟨⟨0, 0⟩, ⟨0, 0⟩⟩, DiagnosticSeverity.Error, "msg", 2551, "Vetur"⟩
            : Diagnostic).message
          = sampleEnv.flattenDiagnosticMessageText raw.messageText
        ∧ (⟨⟨⟨0, 0⟩, ⟨0, 0⟩⟩, DiagnosticSeverity.Error, "msg", 2551, "Vetur"⟩
            : Diagnostic).range
          = sampleEnv.mapBackRange (mkTemplateDoc sampleDoc) raw.span
            (sampleHost.updateCurrentTextDocument
              (mkTemplateDoc sampleDoc)).templateSourceMap
        ∧ (⟨⟨⟨0, 0⟩, ⟨0, 0⟩⟩, DiagnosticSeverity.Error, "msg", 2551, "Vetur"⟩
            : Diagnostic).source = "Vetur" :=
  ⟨by decide,
   doValidation_semantic_only sampleEnv sampleHost ⟨some true⟩ sampleDoc
     ⟨⟨⟨0, 0⟩, ⟨0, 0⟩⟩, DiagnosticSeverity.Error, "msg", 2551, "Vetur"⟩
     (by decide)⟩

/-- C5 (divergence witness): at a concrete engine state in which one
definition span originates in a file the program cannot resolve,
`findDefinition` propagates the thrown TypeError (the non-null assertion in
`getSourceDoc` followed by `getFullText`) instead of dropping that result
from the returned list as the claim states. -/
theorem findDefinition_throws_on_unresolvable :
    (findDefinition sampleEnv sampleHost ⟨some true⟩ sampleDoc ⟨0, 0⟩).1
      = Except.error () := rfl

/-! Embedding of the document update path
(VueTypescriptLanguageService.updateCurrentTextDocument). -/

/-- External collaborators of the update path: the two uri-to-path
conversions from utils/paths and the script-projection cache
(`jsDocuments.get`), all outside the provided sources. -/
structure UpdateEnv where
  getFileFsPath : String → String
  getFilePath : String → String
  jsDocumentsGet : TextDocument → TextDocument

/-- The mutable state the update path reads and writes: the pending-files
list, the per-path script-document cache, the per-path numeric version map,
the last projected script document, and a counter of language-service
restarts (the dispose-and-recreate branch). -/
structure ServiceState where
  files : List String
  scriptDocs : List (String × TextDocument)
  versions : List (String × Nat)
  currentScriptDoc : Option TextDocument
  serviceRestarts : Nat
  deriving DecidableEq

/-- The service state before any update. -/
def ServiceState.init : ServiceState := ⟨[], [], [], none, 0⟩

/-- `VueTypescriptLanguageService.updateCurrentTextDocument`, translated from
the source (the method's stray outer-scope identifiers `files`, `versions`,
`scriptDocs`, `currentScriptDoc`, `jsDocuments` are read as the fields of the
state this method manipulates).  Template-projection paths store the document
and bump the version unconditionally; other paths re-project and bump only
when uri or version differ from the last projected document. -/
def updateCurrentTextDocument (env : UpdateEnv) (s : ServiceState)
    (doc : TextDocument) : ServiceState :=
  let fileFsPath := env.getFileFsPath doc.uri
  let filePath := env.getFilePath doc.uri
  let s0 :=
    if (mapFind s.scriptDocs fileFsPath).isNone
        && (strEndsWith fileFsPath ".vue"
          || strEndsWith fileFsPath ".vue.template") then
      { s with files := s.files ++ [filePath] }
    else s
  if isVirtualVueTemplateFile fileFsPath then
    { s0 with
      scriptDocs := mapInsert s0.scriptDocs fileFsPath doc
      versions := mapInsert s0.versions fileFsPath
        ((mapFind s0.versions fileFsPath).getD 0 + 1) }
  else
    let changed :=
      match s0.currentScriptDoc with
      | none => true
      | some cur => doc.uri != cur.uri || doc.version != cur.version
    if changed then
      let currentScriptDoc := env.jsDocumentsGet doc
      let restarts :=
        match mapFind s0.scriptDocs fileFsPath with
        | some lastDoc =>
          if currentScriptDoc.languageId != lastDoc.languageId then
            s0.serviceRestarts + 1
          else s0.serviceRestarts
        | none => s0.serviceRestarts
      { s0 with
        currentScriptDoc := some currentScriptDoc
        scriptDocs := mapInsert s0.scriptDocs fileFsPath currentScriptDoc
        versions := mapInsert s0.versions fileFsPath
          ((mapFind s0.versions fileFsPath).getD 0 + 1)
        serviceRestarts := restarts }
    else s0

/-- The version stamp the update path maintains for a synthetic file. -/
def versionOf (s : ServiceState) (fileName : String) : Nat :=
  (mapFind s.versions fileName).getD 0

/-- Identity-like collaborator functions for the update path. -/
def updateEnvId : UpdateEnv := ⟨fun u => u, fun u => u, fun d => d⟩

/-- A template-projection document presented twice without any change. -/
def templateUpdateDoc : TextDocument := ⟨"a.vue.template", "vue", 1, "x"⟩

/-- C2 (divergence witness): presenting the identical template-projection
document (same uri, text and version) twice through the update path bumps
the version stamp from 1 to 2; the claimed invariant says a no-op update
leaves the version unchanged. -/
theorem noop_template_update_bumps_version :
    versionOf (updateCurrentTextDocument updateEnvId ServiceState.init
        templateUpdateDoc) "a.vue.template" = 1
    ∧ versionOf (updateCurrentTextDocument updateEnvId
        (updateCurrentTextDocument updateEnvId ServiceState.init
          templateUpdateDoc) templateUpdateDoc) "a.vue.template" = 2 := by
  decide

/-! Embedding of the module resolver
(vueTypescriptLanguageServiceHost.resolveModuleNames). -/

/-- File extensions, mirroring `ts.Extension` (the cases the code uses). -/
inductive Extension where
  | Ts
  | Tsx
  | Js
  deriving DecidableEq

/-- A resolved module, mirroring `ts.ResolvedModule`. -/
structure ResolvedModule where
  resolvedFileName : String
  extension : Extension
  deriving DecidableEq

/-- Drop the last `n` characters of a string, written over character lists so
that it reduces inside the kernel; behaviourally `slice(0, -n)`. -/
def strDropRight (s : String) (n : Nat) : String :=
  String.mk (s.toList.take (s.toList.length - n))

/-- External collaborators of the resolver: `path.isAbsolute`, the engine's
`resolveModuleName` against the real filesystem (`ts.sys`) and against the
composite-file overlay (`vueSys`), the script-document cache, the projection
cache, disk reads and uri construction. -/
structure ResolveEnv where
  isAbsolute : String → Bool
  resolveWithSys : String → String → Option ResolvedModule
  resolveWithVueSys : String → String → Option ResolvedModule
  scriptDocs : List (String × TextDocument)
  jsDocumentsGet : TextDocument → TextDocument
  readFile : String → Option String
  uriOfPath : String → String

/-- Resolution of a single module name, translated from the body of the
`moduleNames.map` callback in `resolveModuleNames`. -/
def resolveOne (env : ResolveEnv) (containingFile : String) (name : String) :
    Option ResolvedModule :=
  if name = bridgeModuleName then
    some ⟨bridgeFileName, Extension.Ts⟩
  else if env.isAbsolute name || !isVueFile name then
    env.resolveWithSys name containingFile
  else
    match env.resolveWithVueSys name containingFile with
    | none => none
    | some resolved =>
      if !strEndsWith resolved.resolvedFileName ".vue.ts" then some resolved
      else
        let resolvedFileName := strDropRight resolved.resolvedFileName 3
        let doc :=
          match mapFind env.scriptDocs resolvedFileName with
          | some d => d
          | none =>
            env.jsDocumentsGet ⟨env.uriOfPath resolvedFileName, "vue", 0,
              (env.readFile resolvedFileName).getD ""⟩
        let extension :=
          if doc.languageId = "typescript" then Extension.Ts
          else if doc.languageId = "tsx" then Extension.Tsx
          else Extension.Js
        some ⟨resolvedFileName, extension⟩

/-- `resolveModuleNames`, translated from the source. -/
def resolveModuleNames (env : ResolveEnv) (moduleNames : List String)
    (containingFile : String) : List (Option ResolvedModule) :=
  moduleNames.map (resolveOne env containingFile)

/-- C4: any module name equal to the fixed bridging-module identifier
resolves to the bridging synthetic file with TypeScript extension,
unconditionally: for every resolver environment (workspace content and
filesystem state) and every containing file. -/
theorem resolveModuleNames_bridge (env : ResolveEnv)
    (moduleNames : List String) (containingFile : String) (i : Nat)
    (h : moduleNames[i]? = some bridgeModuleName) :
    (resolveModuleNames env moduleNames containingFile)[i]?
      = some (some ⟨bridgeFileName, Extension.Ts⟩) := by
  unfold resolveModuleNames
  rw [List.getElem?_map, h]
  simp [resolveOne]

/-- A resolver environment that resolves nothing and knows no files. -/
def sampleResolveEnv : ResolveEnv where
  isAbsolute := fun _ => false
  resolveWithSys := fun _ _ => none
  resolveWithVueSys := fun _ _ => none
  scriptDocs := []
  jsDocumentsGet := fun d => d
  readFile := fun _ => none
  uriOfPath := fun p => p

/-- Witness for C4 at concrete inputs: in an empty workspace the bridging
name still resolves to the bridging file. -/
theorem resolveModuleNames_bridge_witness :
    (["vue-editor-bridge"][0]? = some bridgeModuleName)
    ∧ (resolveModuleNames sampleResolveEnv ["vue-editor-bridge"]
        "/ws/a.vue")[0]? = some (some ⟨bridgeFileName, Extension.Ts⟩) :=
  ⟨by decide,
   resolveModuleNames_bridge sampleResolveEnv ["vue-editor-bridge"]
     "/ws/a.vue" 0 (by decide)⟩

/-! Embedding of the script-snapshot path and the Vue-version probe
(vueTypescriptLanguageServiceHost). -/

/-- Collaborators of `getScriptSnapshot`: the host-creation-time probe
result, path normalization (`Uri.file(...).fsPath`), disk reads
(`tsModule.sys.readFile`) and the external document-regions facility
(`getVueDocumentRegions(...).getSingleTypeDocument(script).getText()`). -/
structure SnapshotEnv where
  isOldVersion : Bool
  normalize : String → String
  readFile : String → Option String
  extractScript : String → String

/-- `parseVueScript`, translated from the source: extract the script region
from composite text; the empty or absent region falls back to the default
empty-module placeholder. -/
def parseVueScript (env : SnapshotEnv) (text : String) : String :=
  let script := env.extractScript text
  if script = "" then "export default {};" else script

/-- The text served by `getScriptSnapshot`, translated from the source: the
bridging file gets the probe-selected bridge payload; a file with a live
script document gets that document's text; otherwise text is read from disk,
and composite (.vue) files additionally go through `parseVueScript`. -/
def getScriptSnapshot (env : SnapshotEnv)
    (scriptDocs : List (String × TextDocument)) (fileName : String) : String :=
  if fileName = bridgeFileName then
    if env.isOldVersion then bridgeOldContent else bridgeContent
  else
    let normalizedFileFsPath := env.normalize fileName
    match mapFind scriptDocs normalizedFileFsPath with
    | some doc => doc.text
    | none =>
      let fileText := (env.readFile normalizedFileFsPath).getD ""
      if isVueFile fileName then parseVueScript env fileText
      else fileText

/-- C9: for a composite (.vue) file with no live editor document, the
snapshot text is read from disk and the script region extracted from that
text; when the extracted script region is empty or absent, the snapshot text
is the default empty-module placeholder, so the engine always receives a
compilable unit. -/
theorem getScriptSnapshot_disk_fallback (env : SnapshotEnv)
    (scriptDocs : List (String × TextDocument)) (fileName : String)
    (hb : fileName ≠ bridgeFileName)
    (hd : mapFind scriptDocs (env.normalize fileName) = none)
    (hv : isVueFile fileName = true) :
    getScriptSnapshot env scriptDocs fileName
      = parseVueScript env ((env.readFile (env.normalize fileName)).getD "")
    ∧ (env.extractScript ((env.readFile (env.normalize fileName)).getD "")
          = "" →
        getScriptSnapshot env scriptDocs fileName = "export default {};") := by
  have hmain : getScriptSnapshot env scriptDocs fileName
      = parseVueScript env ((env.readFile (env.normalize fileName)).getD "") := by
    unfold getScriptSnapshot
    simp only [hb, if_neg, hd, hv, if_true]
    simp [hb, hd, hv]
  refine ⟨hmain, fun hempty => ?_⟩
  rw [hmain]
  unfold parseVueScript
  simp [hempty]

/-- A snapshot environment whose document-regions facility finds no script
region in any text. -/
def sampleSnapshotEnv : SnapshotEnv where
  isOldVersion := false
  normalize := fun p => p
  readFile := fun _ => some "<template><div/></template>"
  extractScript := fun _ => ""

/-- Witness for C9 at concrete inputs: an unopened composite file with no
script region is served the empty-module placeholder. -/
theorem getScriptSnapshot_disk_fallback_witness :
    getScriptSnapshot sampleSnapshotEnv [] "a.vue" = "export default {};" :=
  (getScriptSnapshot_disk_fallback sampleSnapshotEnv [] "a.vue" (by decide)
    (by decide) (by decide)).2 (by decide)

/-- The decimal "major.minor" number matched out of a dependency version
string: integer part, fractional digits as a number, and the count of
fractional digits (so "2.45" is ⟨2, 45, 2⟩ and "2.05" is ⟨2, 5, 2⟩). -/
structure SloppyVersion where
  intPart : Nat
  fracNum : Nat
  fracLen : Nat
  deriving DecidableEq

/-- The comparison `parseFloat(vueDep) < 2.5` on the matched decimal value,
carried out exactly: intPart + fracNum / 10 ^ fracLen < 5 / 2. -/
def SloppyVersion.ltTwoPointFive (v : SloppyVersion) : Bool :=
  2 * v.intPart * 10 ^ v.fracLen + 2 * v.fracNum < 5 * 10 ^ v.fracLen

/-- The two dependency entries of a parsed package.json the probe reads.
The outer Option is presence of the `dependencies`/`devDependencies` object
itself; the inner Option is presence of its `vue` entry. -/
structure PkgJSON where
  dependenciesVue : Option (Option String)
  devDependenciesVue : Option (Option String)
  deriving DecidableEq

/-- Collaborators of the probe: config-file discovery, disk reads, JSON
parsing (`none` models a thrown parse error) and the regex-plus-parseFloat
step (`none` models a version string without a "major.minor" match, where
indexing the null match result throws). -/
structure ProbeEnv where
  findPackageJSONPath : Option String
  readFile : String → Option String
  parsePkgJSON : String → Option PkgJSON
  matchMajorMinor : String → Option SloppyVersion

/-- The fallback read of `devDependencies.vue`: a missing `devDependencies`
object makes the property access throw, and a missing `vue` entry leaves the
overall string undefined so the later `.match` call throws; both outcomes
are `none` here and both make the probe report old. -/
def devVueStr (pkg : PkgJSON) : Option String :=
  match pkg.devDependenciesVue with
  | none => none
  | some entry => entry

/-- The expression `packageJSON.dependencies.vue ||
packageJSON.devDependencies.vue` for a package whose `dependencies` object
exists: JS `||` falls through to the devDependencies entry when the
dependencies entry is absent or the empty string. -/
def pkgVueStr (pkg : PkgJSON) : Option String :=
  match pkg.dependenciesVue with
  | none => none
  | some depVue =>
    match depVue with
    | some v => if v = "" then devVueStr pkg else some v
    | none => devVueStr pkg

/-- `isUsingOldVueVersion`, translated from the source.  Every exception path
of the try block (no package.json found, unreadable file, unparsable JSON,
missing `dependencies` object, no usable vue entry, no "major.minor" match)
ends in the catch that returns true; only a successfully matched version
compared with 2.5 can return false. -/
def isUsingOldVueVersion (env : ProbeEnv) : Bool :=
  match env.findPackageJSONPath with
  | none => true
  | some packageJSONPath =>
    match env.readFile packageJSONPath with
    | none => true
    | some contents =>
      match env.parsePkgJSON contents with
      | none => true
      | some pkg =>
        match pkg.dependenciesVue with
        | none => true
        | some _ =>
          match pkgVueStr pkg with
          | none => true
          | some vueStr =>
            match env.matchMajorMinor vueStr with
            | none => true
            | some v => v.ltTwoPointFive

/-- C10: the bridging content served to the engine is selected by a probe
that fails closed: whenever any step of the probe fails (package.json
missing, unreadable, unparsable, no `dependencies` object, no usable vue
entry, no recognizable "major.minor" version) the old bridging content is
served; the new content is served only when the whole probe chain succeeds
with a matched version not below 2.5. -/
theorem bridge_probe_fails_closed (penv : ProbeEnv) (senv : SnapshotEnv)
    (scriptDocs : List (String × TextDocument))
    (h : senv.isOldVersion = isUsingOldVueVersion penv) :
    (penv.findPackageJSONPath = none →
      getScriptSnapshot senv scriptDocs bridgeFileName = bridgeOldContent)
    ∧ (∀ p, penv.findPackageJSONPath = some p → penv.readFile p = none →
        getScriptSnapshot senv scriptDocs bridgeFileName = bridgeOldContent)
    ∧ (∀ p c, penv.findPackageJSONPath = some p → penv.readFile p = some c →
        penv.parsePkgJSON c = none →
        getScriptSnapshot senv scriptDocs bridgeFileName = bridgeOldContent)
    ∧ (∀ p c pkg, penv.findPackageJSONPath = some p →
        penv.readFile p = some c → penv.parsePkgJSON c = some pkg →
        pkg.dependenciesVue = none →
        getScriptSnapshot senv scriptDocs bridgeFileName = bridgeOldContent)
    ∧ (∀ p c pkg, penv.findPackageJSONPath = some p →
        penv.readFile p = some c → penv.parsePkgJSON c = some pkg →
        pkgVueStr pkg = none →
        getScriptSnapshot senv scriptDocs bridgeFileName = bridgeOldContent)
    ∧ (∀ p c pkg vueStr, penv.findPackageJSONPath = some p →
        penv.readFile p = some c → penv.parsePkgJSON c = some pkg →
        pkgVueStr pkg = some vueStr → penv.matchMajorMinor vueStr = none →
        getScriptSnapshot senv scriptDocs bridgeFileName = bridgeOldContent)
    ∧ (getScriptSnapshot senv scriptDocs bridgeFileName = bridgeContent →
        ∃ p c pkg vueStr v, penv.findPackageJSONPath = some p
          ∧ penv.readFile p = some c ∧ penv.parsePkgJSON c = some pkg
          ∧ pkgVueStr pkg = some vueStr
          ∧ penv.matchMajorMinor vueStr = some v
          ∧ v.ltTwoPointFive = false) := by
  have hsnap : getScriptSnapshot senv scriptDocs bridgeFileName
      = if senv.isOldVersion then bridgeOldContent else bridgeContent := by
    unfold getScriptSnapshot
    simp
  have hold : isUsingOldVueVersion penv = true →
      getScriptSnapshot senv scriptDocs bridgeFileName = bridgeOldContent := by
    intro ht
    rw [hsnap, h, ht]
    simp
  refine ⟨fun h1 => hold ?_, fun p h1 h2 => hold ?_, fun p c h1 h2 h3 => hold ?_,
    fun p c pkg h1 h2 h3 h4 => hold ?_, fun p c pkg h1 h2 h3 h4 => hold ?_,
    fun p c pkg vueStr h1 h2 h3 h4 h5 => hold ?_, fun hnew => ?_⟩
  · simp [isUsingOldVueVersion, h1]
  · simp [isUsingOldVueVersion, h1, h2]
  · simp [isUsingOldVueVersion, h1, h2, h3]
  · simp [isUsingOldVueVersion, h1, h2, h3, h4]
  · unfold isUsingOldVueVersion
    simp only [h1, h2, h3, h4]
    rcases pkg.dependenciesVue with _ | depVue <;> simp
  · unfold isUsingOldVueVersion
    simp only [h1, h2, h3, h4, h5]
    rcases pkg.dependenciesVue with _ | depVue <;> simp
  · have hfalse : isUsingOldVueVersion penv = false := by
      by_cases hb : isUsingOldVueVersion penv = true
      · rw [hsnap, h, hb] at hnew
        simp at hnew
        exact absurd hnew (by decide)
      · simpa using hb
    unfold isUsingOldVueVersion at hfalse
    cases h1 : penv.findPackageJSONPath with
    | none =>
      simp only [h1] at hfalse
      exact absurd hfalse (by decide)
    | some p =>
      simp only [h1] at hfalse
      cases h2 : penv.readFile p with
      | none =>
      simp only [h2] at hfalse
      exact absurd hfalse (by decide)
      | some c =>
        simp only [h2] at hfalse
        cases h3 : penv.parsePkgJSON c with
        | none =>
      simp only [h3] at hfalse
      exact absurd hfalse (by decide)
        | some pkg =>
          simp only [h3] at hfalse
          cases h4 : pkg.dependenciesVue with
          | none =>
      simp only [h4] at hfalse
      exact absurd hfalse (by decide)
          | some depVue =>
            simp only [h4] at hfalse
            cases h5 : pkgVueStr pkg with
            | none =>
      simp only [h5] at hfalse
      exact absurd hfalse (by decide)
            | some vueStr =>
              simp only [h5] at hfalse
              cases h6 : penv.matchMajorMinor vueStr with
              | none =>
      simp only [h6] at hfalse
      exact absurd hfalse (by decide)
              | some v =>
                simp only [h6] at hfalse
                exact ⟨p, c, pkg, vueStr, v, rfl, h2, h3, h5, h6, hfalse⟩

/-- A probe environment with no package.json at all. -/
def sampleProbeEnvNone : ProbeEnv where
  findPackageJSONPath := none
  readFile := fun _ => none
  parsePkgJSON := fun _ => none
  matchMajorMinor := fun _ => none

/-- Witness for C10 at concrete inputs: with no package.json the probe
reports old and the old bridging content is served. -/
theorem bridge_probe_fails_closed_witness :
    getScriptSnapshot ⟨true, fun p => p, fun _ => none, fun _ => ""⟩ []
      bridgeFileName = bridgeOldContent :=
  (bridge_probe_fails_closed sampleProbeEnvNone
    ⟨true, fun p => p, fun _ => none, fun _ => ""⟩ [] (by decide)).1 rfl

end Vetur
